import Mathlib

/-!
Verification of the context-augmented generation pipeline of the chat backend.

The development shallowly embeds the Python source of the repository:
dataset relevance search (services/dataset_service.py), context composition,
model resolution and generation (api/v1/endpoints/chat.py,
services/ollama_service.py) and the login message-cache warm-up
(api/v1/endpoints/users.py).  Pure functions become Lean functions; the
pandas calls used by the dataset service are modelled at the level of the
lists they manipulate, and their sorting/sampling primitives are modelled
explicitly below.
-/

/-- the apostrophe character, used both by the tokenizer model and by the
formatted context lines. -/
def apos : Char := Char.ofNat 39

/-- the apostrophe as a one-character string. -/
def quoteS : String := apos.toString

/-! ## Python value helpers

Cells of the normalized data frame are modelled as `Option String`:
`none` is a missing value (Python `None`), `some s` a string value.
-/

/-- Python `str(c or "")`: a falsy cell (None or empty string) becomes `""`. -/
def cellStr : Option String → String
  | none => ""
  | some s => s

/-- Python `str(c or "") or None` as used in the `DatasetRow` constructor
calls: falsy cells collapse to `None`, anything else stays a string. -/
def pyOrNone : Option String → Option String
  | none => none
  | some s => if s = "" then none else some s

/-- Python truthiness of an optional string (`if r.timestamp:` etc.). -/
def pyTruthy : Option String → Bool
  | none => false
  | some s => !(s == "")

/-! ## Data model (services/dataset_service.py) -/

/-- DatasetRow, services/dataset_service.py lines 12-19. -/
structure DatasetRow where
  timestamp : Option String
  track : Option String
  artist : Option String
  album : Option String
  ms_played : Option String
deriving DecidableEq

/-- one row of the normalized internal data frame (the columns produced by
`_normalize_columns`); the haystack column is derived below. -/
structure IndexedRow where
  timestamp : Option String
  track : Option String
  artist : Option String
  album : Option String
  ms_played : Option String
deriving DecidableEq

instance : Inhabited IndexedRow := ⟨⟨none, none, none, none, none⟩⟩

/-- ASCII lowercasing of one character (the character class relevant to the
tokenizer and the data evaluated here; Python `str.lower`). -/
def lowerChar (c : Char) : Char :=
  if 65 ≤ c.toNat && c.toNat ≤ 90 then Char.ofNat (c.toNat + 32) else c

/-- Python `str.lower` on a string. -/
def strLower (s : String) : String := String.mk (s.data.map lowerChar)

/-- the whitespace class of Python `str.strip`. -/
def isSpaceChar (c : Char) : Bool :=
  c.toNat = 32 || c.toNat = 9 || c.toNat = 10 || c.toNat = 13 || c.toNat = 11 || c.toNat = 12

/-- Python `str.strip`: drop leading and trailing whitespace. -/
def strTrim (s : String) : String :=
  String.mk (((s.data.dropWhile isSpaceChar).reverse.dropWhile isSpaceChar).reverse)

/-- the `_join_lower` haystack of a normalized row
(services/dataset_service.py lines 73-81): join track/artist/album with
spaces, strip, lowercase. -/
def haystack (r : IndexedRow) : String :=
  strLower (strTrim (String.intercalate " " [cellStr r.track, cellStr r.artist, cellStr r.album]))

/-- the `DatasetRow(...)` constructor call used by both branches of
`find_relevant` (lines 151-159 and 181-189): every field goes through
`str(value or "") or None`. -/
def toDatasetRow (r : IndexedRow) : DatasetRow :=
  ⟨pyOrNone r.timestamp, pyOrNone r.track, pyOrNone r.artist,
   pyOrNone r.album, pyOrNone r.ms_played⟩

/-! ## Tokenization (`_extract_keywords`, lines 107-120) -/

/-- character class of the regex `[A-Za-z0-9']+`. -/
def isWordChar (c : Char) : Bool :=
  (97 ≤ c.toNat && c.toNat ≤ 122) || (65 ≤ c.toNat && c.toNat ≤ 90) ||
  (48 ≤ c.toNat && c.toNat ≤ 57) || c.toNat == 39

/-- worker of the `re.findall` model: `acc` is the current (reversed)
partial run of word characters; a maximal run is emitted when it ends. -/
def runsAux : List Char → List Char → List (List Char)
  | [], acc => if acc.isEmpty then [] else [acc.reverse]
  | c :: cs, acc =>
    if isWordChar c then runsAux cs (c :: acc)
    else if acc.isEmpty then runsAux cs []
    else acc.reverse :: runsAux cs []

/-- `re.findall(r"[A-Za-z0-9']+", text)`: the maximal runs of word
characters, in order. -/
def splitRuns (l : List Char) : List (List Char) := runsAux l []

/-- the stop-word set of `_extract_keywords` (lines 110-116). -/
def python_stop_words : List String :=
  ["the", "a", "an", "and", "or", "but", "in", "on", "at", "to", "for", "of", "with", "by",
   "is", "are", "was", "were", "be", "been", "being", "have", "has", "had", "do", "does", "did",
   "will", "would", "could", "should", "may", "might", "can", "this", "that", "these", "those",
   "i", "you", "he", "she", "it", "we", "they", "me", "him", "her", "us", "them",
   "my", "your", "his", "its", "our", "their", "mine", "yours", "hers", "ours", "theirs"]

/-- `_extract_keywords`: lowercase, take word-character runs, keep tokens of
length greater than one that are not stop words. -/
def extract_keywords (text : String) : List String :=
  ((splitRuns (strLower text).data).map (fun r => String.mk r)).filter
    (fun w => w.length > 1 && !(python_stop_words.contains w))

/-- Python substring containment `needle in hay` on character lists. -/
def listInfix (needle : List Char) : List Char → Bool
  | [] => needle.isEmpty
  | c :: t => needle.isPrefixOf (c :: t) || listInfix needle t

/-- the music vocabulary of `_is_music_related_query` (lines 124-128). -/
def music_keywords : List String :=
  ["song", "songs", "music", "track", "tracks", "artist", "artists", "album", "albums",
   "spotify", "listen", "listening", "played", "play", "plays", "favorite", "best", "top",
   "history", "data", "dataset", "records", "entries", "taste", "preference"]

/-- `_is_music_related_query` (lines 122-130): some music keyword occurs as a
substring of the lowercased query. -/
def is_music_related_query (query : String) : Bool :=
  music_keywords.any (fun kw => listInfix kw.data (strLower query).data)

/-- `score_row` (lines 168-171): number of query keywords occurring in the
haystack (an empty haystack scores 0). -/
def score_row (keywords : List String) (hay : String) : Nat :=
  if hay = "" then 0
  else (keywords.filter (fun k => listInfix k.data hay.data)).length

/-! ## Model of `df.sample(n, random_state=42)`

The code draws a fixed-seed pseudo-random sample without replacement
(line 148).  The claims depend only on the draw being a deterministic
function of the frame and the size that returns exactly `n` distinct rows;
the exact Mersenne-Twister stream of numpy is not reproduced.  The model
below draws by repeatedly removing a pseudo-randomly chosen row, driven by
a 64-bit linear congruential generator seeded with the fixed seed 42.
-/

/-- one step of the 64-bit linear congruential generator driving the
deterministic sample model. -/
def lcgNext (s : Nat) : Nat :=
  (6364136223846793005 * s + 1442695040888963407) % 18446744073709551616

/-- deterministic sample without replacement of `n` rows (model of
`df.sample(n=sample_size, random_state=42)`). -/
def sampleRows : Nat → List IndexedRow → Nat → List IndexedRow
  | 0, _, _ => []
  | _ + 1, [], _ => []
  | n + 1, r :: rs, seed =>
    let s := lcgNext seed
    let i := s % (r :: rs).length
    (r :: rs).getD i r :: sampleRows n ((r :: rs).eraseIdx i) s
termination_by n rows => rows.length
decreasing_by
  have h : lcgNext seed % (rs.length + 1) < rs.length + 1 :=
    Nat.mod_lt _ (Nat.succ_pos _)
  simp only [List.length_eraseIdx, List.length_cons, if_pos h]
  omega

/-! ## Model of `sort_values("_score", ascending=False)` (line 178)

`DataFrame.sort_values` on one column with the default `kind="quicksort"`
calls `nargsort(..., ascending=False)` (pandas/core/sorting.py), which
reverses the values and the index array, takes `np.argsort(kind="quicksort")`
of the reversed values, gathers, and reverses the resulting indexer.
`np.argsort(kind="quicksort")` is numpy's introsort (npysort aquicksort):
median-of-three quicksort partitioning with insertion sort below 16 elements
and a depth-limited heapsort fallback.  pandas documents this default kind
as NOT stable.  The functions below port that algorithm; the fuel arguments
are generous upper bounds that are never exhausted on the inputs evaluated
in this file.
-/

/-- swap of two array cells, identity when an index is out of range. -/
def swapD (a : Array Nat) (i j : Nat) : Array Nat :=
  let x := a.getD i 0
  let y := a.getD j 0
  (a.setD i y).setD j x

/-- key of position `x` of the argsort permutation `ts` in value array `v`. -/
def npKey (v ts : Array Nat) (x : Nat) : Nat := v.getD (ts.getD x 0) 0

/-- numpy aquicksort inner scan `do ++pi; while (v[*pi] < vp)`. -/
def npAdvance (v ts : Array Nat) (vp : Nat) : Nat → Nat → Nat
  | 0, i => i + 1
  | fuel + 1, i =>
    if npKey v ts (i + 1) < vp then npAdvance v ts vp fuel (i + 1) else i + 1

/-- numpy aquicksort inner scan `do --pj; while (vp < v[*pj])`. -/
def npRetreat (v ts : Array Nat) (vp : Nat) : Nat → Nat → Nat
  | 0, j => j - 1
  | fuel + 1, j =>
    if vp < npKey v ts (j - 1) then npRetreat v ts vp fuel (j - 1) else j - 1

/-- numpy aquicksort partition exchange loop. -/
def npPartLoop (v : Array Nat) (vp : Nat) : Nat → Array Nat → Nat → Nat → Array Nat × Nat
  | 0, ts, pi, _ => (ts, pi)
  | fuel + 1, ts, pi, pj =>
    let pi2 := npAdvance v ts vp (ts.size + 2) pi
    let pj2 := npRetreat v ts vp (ts.size + 2) pj
    if pi2 ≥ pj2 then (ts, pi2)
    else npPartLoop v vp fuel (swapD ts pi2 pj2) pi2 pj2

/-- one numpy aquicksort partition step on the inclusive range `pl..pr`:
median-of-three pivot, exchange loop, pivot restored at the split point. -/
def npPartitionStep (v ts : Array Nat) (pl pr : Nat) : Array Nat × Nat :=
  let pm := pl + (pr - pl) / 2
  let ts := if npKey v ts pm < npKey v ts pl then swapD ts pm pl else ts
  let ts := if npKey v ts pr < npKey v ts pm then swapD ts pr pm else ts
  let ts := if npKey v ts pm < npKey v ts pl then swapD ts pm pl else ts
  let vp := npKey v ts pm
  let ts := swapD ts pm (pr - 1)
  let (ts, pi) := npPartLoop v vp (ts.size + 2) ts pl (pr - 1)
  let ts := swapD ts pi (pr - 1)
  (ts, pi)

/-- numpy aintsort: argsort insertion sort of the inclusive range `pl..pr`;
inner shift loop. -/
def npInsertInner (v : Array Nat) (vp pl : Nat) : Nat → Array Nat → Nat → Array Nat × Nat
  | 0, ts, pj => (ts, pj)
  | fuel + 1, ts, pj =>
    if pl < pj && vp < npKey v ts (pj - 1) then
      npInsertInner v vp pl fuel (ts.setD pj (ts.getD (pj - 1) 0)) (pj - 1)
    else (ts, pj)

/-- numpy aintsort outer loop. -/
def npInsertSort (v : Array Nat) (pl pr : Nat) : Nat → Array Nat → Nat → Array Nat
  | 0, ts, _ => ts
  | fuel + 1, ts, pi =>
    if pi ≤ pr then
      let vi := ts.getD pi 0
      let vp := v.getD vi 0
      let (ts, pj) := npInsertInner v vp pl (ts.size + 2) ts pi
      npInsertSort v pl pr fuel (ts.setD pj vi) (pi + 1)
    else ts

/-- numpy aheapsort sift loop on the inclusive range starting at `pl`
(1-based heap positions `k` live at array position `pl + k - 1`); `tmp` is
the element being sifted.  Unreachable for the array sizes evaluated in this
file (the introsort depth limit is never hit below 18 elements); ported for
completeness. -/
def npHeapSift (v : Array Nat) (pl n tmp : Nat) : Nat → Array Nat → Nat → Nat → Array Nat × Nat
  | 0, ts, i, _ => (ts, i)
  | fuel + 1, ts, i, j =>
    if j ≤ n then
      let j := if j < n && v.getD (ts.getD (pl + j - 1) 0) 0 < v.getD (ts.getD (pl + j) 0) 0
               then j + 1 else j
      if v.getD tmp 0 < v.getD (ts.getD (pl + j - 1) 0) 0 then
        npHeapSift v pl n tmp fuel (ts.setD (pl + i - 1) (ts.getD (pl + j - 1) 0)) j (2 * j)
      else (ts, i)
    else (ts, i)

/-- numpy aheapsort heapify phase. -/
def npHeapify (v : Array Nat) (pl n : Nat) : Nat → Array Nat → Nat → Array Nat
  | 0, ts, _ => ts
  | fuel + 1, ts, l =>
    if l = 0 then ts
    else
      let tmp := ts.getD (pl + l - 1) 0
      let (ts, i) := npHeapSift v pl n tmp (ts.size + 2) ts l (2 * l)
      npHeapify v pl n fuel (ts.setD (pl + i - 1) tmp) (l - 1)

/-- numpy aheapsort extraction phase. -/
def npHeapExtract (v : Array Nat) (pl : Nat) : Nat → Array Nat → Nat → Array Nat
  | 0, ts, _ => ts
  | fuel + 1, ts, n =>
    if n ≤ 1 then ts
    else
      let tmp := ts.getD (pl + n - 1) 0
      let ts := ts.setD (pl + n - 1) (ts.getD pl 0)
      let n := n - 1
      let (ts, i) := npHeapSift v pl n tmp (ts.size + 2) ts 1 2
      npHeapExtract v pl fuel (ts.setD (pl + i - 1) tmp) n

/-- numpy aheapsort of the inclusive range `pl..pr`. -/
def npHeapsortRange (v ts : Array Nat) (pl pr : Nat) : Array Nat :=
  let n := pr + 1 - pl
  npHeapExtract v pl (n + 2) (npHeapify v pl n (n + 2) ts (n / 2)) n

/-- numpy aquicksort main recursion on the inclusive range `pl..pr`, with the
shared depth counter threaded through exactly as in the C stack machine
(the continued, smaller partition consumes depth decrements before the
pushed one is popped). -/
def npAquicksort (v : Array Nat) : Nat → Array Nat → Nat → Nat → Int → Array Nat × Int
  | 0, ts, _, _, d => (ts, d)
  | fuel + 1, ts, pl, pr, d =>
    if pr - pl > 15 then
      if d < 0 then (npHeapsortRange v ts pl pr, d - 1)
      else
        let d := d - 1
        let (ts, pi) := npPartitionStep v ts pl pr
        if pi - pl < pr - pi then
          let (ts, d) := npAquicksort v fuel ts pl (pi - 1) d
          npAquicksort v fuel ts (pi + 1) pr d
        else
          let (ts, d) := npAquicksort v fuel ts (pi + 1) pr d
          npAquicksort v fuel ts pl (pi - 1) d
    else (npInsertSort v pl pr (pr + 2 - pl) ts (pl + 1), d)

/-- `np.argsort(v, kind="quicksort")` model: introsort of the index array
`0..n-1` keyed by `v`, depth limit `2 * floor(log2 n)`. -/
def npArgsortQuick (v : Array Nat) : Array Nat :=
  let n := v.size
  (npAquicksort v (2 * n + 64) (Array.range n) 0 (n - 1) (2 * (Nat.log2 n : Int))).1

/-- pandas `nargsort(scores, kind="quicksort", ascending=False)` (the
sorting kernel of `sort_values("_score", ascending=False)` with no missing
keys): reverse the values and the positions, argsort ascending, gather,
reverse the indexer. -/
def sortPositionsDesc (scores : List Nat) : List Nat :=
  let n := scores.length
  let revIdx := (List.range n).reverse
  let perm := (npArgsortQuick scores.reverse.toArray).toList
  (perm.map (fun p => revIdx.getD p 0)).reverse

/-! ## `find_relevant` (lines 132-190) -/

/-- `find_relevant` on a loaded frame `rows`: the music-vocabulary sampling
branch (lines 142-160), the empty-keyword early return (163-165), and the
scoring branch (167-190): score, keep positive scores, sort by score
descending with the pandas default sort, truncate, convert. -/
def find_relevant (rows : List IndexedRow) (query : String) (max_results : Nat) :
    List DatasetRow :=
  if is_music_related_query query && (extract_keywords query).isEmpty then
    (sampleRows (min max_results rows.length) rows 42).map toDatasetRow
  else
    let keywords := extract_keywords query
    if keywords.isEmpty then []
    else
      let scored := rows.map (fun r => (r, score_row keywords (haystack r)))
      let pos := scored.filter (fun p => 0 < p.2)
      if pos.isEmpty then []
      else
        let order := sortPositionsDesc (pos.map (fun p => p.2))
        ((order.map (fun i => (pos.getD i (default, 0)).1)).take max_results).map
          (fun p => toDatasetRow p)

/-! ## Loading (lines 84-105) and the service boundary (132-137) -/

/-- the outcome of one `pd.read_csv` attempt: `none` when the attempt raised,
`some rows` when it parsed. -/
def try_encodings : List (Option (List IndexedRow)) → Option (List IndexedRow)
  | [] => none
  | some rows :: _ => some rows
  | none :: rest => try_encodings rest

/-- `load_dataset` (lines 84-105): a missing path or failure of every
encoding attempt leaves the service unloaded with no frame; the first
successful attempt loads the frame.  Returns the `(loaded, frame)` state. -/
def load_dataset (path_exists : Bool) (attempts : List (Option (List IndexedRow))) :
    Bool × Option (List IndexedRow) :=
  if !path_exists then (false, none)
  else
    match try_encodings attempts with
    | some rows => (true, some rows)
    | none => (false, none)

/-- `find_relevant` at the service boundary (lines 132-137): when the index
is unavailable a load is attempted, and if the service is still unavailable
the query returns the empty list. -/
def service_find_relevant (path_exists : Bool)
    (attempts : List (Option (List IndexedRow))) (query : String) (max_results : Nat) :
    List DatasetRow :=
  match (load_dataset path_exists attempts).2 with
  | none => []
  | some rows => find_relevant rows query max_results

/-! ## `get_relevant_context` (lines 192-214) -/

/-- the header line of the dataset context block (line 197). -/
def header_line : String := "Spotify listening history context (top matches):"

/-- one formatted context line (lines 199-209): optional timestamp, the
quoted-track-by-artist segment with placeholders for falsy track/artist,
optional album and play-time fields, joined by pipes. -/
def formatRow (r : DatasetRow) : String :=
  let parts := if pyTruthy r.timestamp then [cellStr r.timestamp] else []
  let title := if pyTruthy r.track then cellStr r.track else "Unknown Track"
  let artist := if pyTruthy r.artist then cellStr r.artist else "Unknown Artist"
  let parts := parts ++ [quoteS ++ title ++ quoteS ++ " by " ++ artist]
  let parts := parts ++ (if pyTruthy r.album then ["album: " ++ cellStr r.album] else [])
  let parts := parts ++ (if pyTruthy r.ms_played then ["played_ms: " ++ cellStr r.ms_played] else [])
  " - " ++ String.intercalate " | " parts

/-- the lines of the context block: header followed by one line per match. -/
def contextLines (ms : List DatasetRow) : List String :=
  header_line :: ms.map formatRow

/-- Python slice `s[:i]` for an arbitrary integer bound: a negative bound
counts from the end. -/
def pySliceTo (s : String) (i : Int) : String :=
  if 0 ≤ i then String.mk (s.data.take i.toNat)
  else String.mk (s.data.take (s.length - i.natAbs))

/-- the tail of `get_relevant_context` (lines 197-214) applied to an already
computed match list: `None` on no matches, otherwise the joined block,
truncated to `context[: char_limit - 3] + "..."` when it exceeds the
character budget. -/
def composeContext (ms : List DatasetRow) (char_limit : Nat) : Option String :=
  if ms.isEmpty then none
  else
    let context := String.intercalate "\n" (contextLines ms)
    some (if context.length > char_limit then
            pySliceTo context ((char_limit : Int) - 3) ++ "..."
          else context)

/-- `get_relevant_context` (lines 192-214): matches from `find_relevant`
with its default `max_results = 12`, then the block composition. -/
def get_relevant_context (rows : List IndexedRow) (query : String)
    (char_limit : Nat) : Option String :=
  composeContext (find_relevant rows query 12) char_limit

/-! ## Generation client (config/ollama_config.py, services/ollama_service.py,
api/v1/endpoints/chat.py) -/

/-- `general_error_message` of config/ollama_config.py line 79. -/
def general_error_message : String :=
  "I apologize, but I encountered an error while processing your request."

/-- `connection_error_message` of config/ollama_config.py line 78. -/
def connection_error_message : String :=
  "Unable to connect to Ollama. Please ensure Ollama is running locally."

/-- the fixed no-models reply of chat.py line 264. -/
def no_models_message : String :=
  "No models are available in Ollama. Please install a model first."

/-- `default_model` of config/ollama_config.py line 17. -/
def config_default_model : String := "llama3.2:3b"

/-- the exception taxonomy of `_make_request`
(services/ollama_service.py lines 37-45, plus a JSON decode failure). -/
inductive TransportFailure where
  | connectionError
  | timeoutError
  | requestError
  | parseError
deriving DecidableEq

/-- outcome of one backend call: a raised transport failure, or a parsed
response abstracted to whether it has a `message` key and whether that
message carries a string `content` field. -/
inductive BackendResult where
  | failure (f : TransportFailure)
  | success (message : Option (Option String))
deriving DecidableEq

/-- `_generate_single_response` (services/ollama_service.py lines 145-158):
a response with `message.content` yields the content; a missing `message`
key, a malformed `message` (the inner `KeyError`/`TypeError` lands in the
same `except`) and every raised transport failure all yield the configured
error message. -/
def generate_single_response : BackendResult → String
  | .failure _ => general_error_message
  | .success none => general_error_message
  | .success (some none) => general_error_message
  | .success (some (some content)) => content

/-- lines 106-107 of services/ollama_service.py: a falsy `model` argument
(absent or empty) falls back to the configured default. -/
def generate_response_resolve_model (requested : Option String) (cfgDefault : String) :
    String :=
  match requested with
  | none => cfgDefault
  | some m => if m == "" then cfgDefault else m

/-- `generate_response` with `stream=False`
(services/ollama_service.py lines 83-158): resolve the model, call the
backend, extract or degrade; the outer `except` (lines 141-143) returns the
same configured error message, so the function never raises. -/
def generate_response (requested : Option String) (cfgDefault : String)
    (backend : String → BackendResult) : String :=
  generate_single_response (backend (generate_response_resolve_model requested cfgDefault))

/-- lines 260-269 of chat.py: the installed-model names; an empty list is
reported, an absent configured default falls back to the first name. -/
def resolve_default_model (model_names : List String) (cfgDefault : String) :
    Option String :=
  match model_names with
  | [] => none
  | first :: _ => some (if model_names.contains cfgDefault then cfgDefault else first)

/-- the dataset-context guidance sentence appended to the system prompt
(chat.py lines 285-291). -/
def dataset_guidance : String :=
  "\n\nWhen answering, prioritize and reference the following dataset context if it is relevant to the user" ++
  quoteS ++ "s question. If it is not relevant, answer normally. Do not fabricate entries.\n\n"

/-- `generate_ollama_response_with_context` (chat.py lines 241-309):
health gate, model-name extraction (`model.get("name", "")`), the empty-list
report, default-or-first resolution, prompt assembly, and the call into
`OllamaService.generate_response`.  The backend is an oracle from model name
and system prompt to a `BackendResult`. -/
def generate_ollama_response_with_context (healthy : Bool)
    (available_models : List (Option String)) (cfgDefault : String)
    (system_prompt : String) (dataset_context : Option String)
    (backend : String → String → BackendResult) : String :=
  if !healthy then connection_error_message
  else
    let model_names := available_models.map (fun m => m.getD "")
    match resolve_default_model model_names cfgDefault with
    | none => no_models_message
    | some default_model =>
      let prompt :=
        match dataset_context with
        | some ctx => system_prompt ++ dataset_guidance ++ ctx
        | none => system_prompt
      generate_response (some default_model) cfgDefault (fun m => backend m prompt)

/-! ## Message cache warm-up (api/v1/endpoints/users.py lines 80-113) -/

/-- the dictionary returned by `cache_user_messages_on_login`, with absent
keys as `none`. -/
structure WarmResult where
  cached : Bool
  messages_count : Option Nat
  total_messages : Option Nat
  cache_status : Option String
  reason : Option String
deriving DecidableEq

/-- `cache_user_messages_on_login`: the Redis-unavailable report, the
empty-list no-op report, and the per-message warm loop whose result counts
the successful `cache_chat_message` calls (each modelled by its boolean
outcome). -/
def cache_user_messages_on_login (user_id : Nat) (redis_available : Bool)
    (message_cached : List Bool) : WarmResult :=
  if !redis_available then
    ⟨false, none, none, none, some "Redis not available"⟩
  else if message_cached.isEmpty then
    ⟨true, some 0, none, none, some "No messages to cache"⟩
  else
    ⟨true, some (message_cached.count true), some message_cached.length,
     some "warmed", none⟩

/-! ## Concrete data used by witnesses and counterexamples -/

/-- seventeen rows whose haystacks all contain the keyword `love` exactly
once, so every row scores 1 for the query `love` (a 17-way tie). -/
def loveRows : List IndexedRow :=
  (List.range 17).map (fun i => ⟨none, some ("love" ++ toString i), none, none, none⟩)

/-- a row whose haystack (`hello`) matches no keyword of the query
`What songs do I like?`. -/
def helloRow : IndexedRow := ⟨none, some "hello", none, none, none⟩

/-- a one-row frame matched by the query `adele`; only the track field is
set. -/
def adeleRows : List IndexedRow := [⟨none, some "adele", none, none, none⟩]

/-- the context block the service produces for `adele` under the default
1500-character budget. -/
def adeleBlock : String := (get_relevant_context adeleRows "adele" 1500).getD ""

/-! ## Claim-side formalizations of the context line format (section 4.2 of
the specification, genericized there as
`timestamp | quoted subject by secondary | album: collection | metric: value`;
in this code base the subject is the track, the secondary the artist and the
metric the `played_ms` field) -/

/-- Modelled from the original claim text of C8: one line per row in the
pipe-joined format in which EVERY empty field is omitted, including the
track and the artist (the `by` part disappearing with an empty artist). -/
def original_claim_line (r : DatasetRow) : String :=
  let subject :=
    if pyTruthy r.track && pyTruthy r.artist then
      [quoteS ++ cellStr r.track ++ quoteS ++ " by " ++ cellStr r.artist]
    else if pyTruthy r.track then [quoteS ++ cellStr r.track ++ quoteS]
    else if pyTruthy r.artist then ["by " ++ cellStr r.artist]
    else []
  let segs := (if pyTruthy r.timestamp then [cellStr r.timestamp] else []) ++ subject ++
    (if pyTruthy r.album then ["album: " ++ cellStr r.album] else []) ++
    (if pyTruthy r.ms_played then ["played_ms: " ++ cellStr r.ms_played] else [])
  " - " ++ String.intercalate " | " segs

/-- Modelled from the amended claim text of C8: timestamp, album and metric
segments are omitted when the field is empty, while the quoted
track-by-artist segment always appears, an empty track or artist being
replaced by the placeholders `Unknown Track` / `Unknown Artist`. -/
def claim_line (r : DatasetRow) : String :=
  let segs : List (Option String) :=
    [if pyTruthy r.timestamp then some (cellStr r.timestamp) else none,
     some (quoteS ++ (if pyTruthy r.track then cellStr r.track else "Unknown Track") ++
           quoteS ++ " by " ++
           (if pyTruthy r.artist then cellStr r.artist else "Unknown Artist")),
     if pyTruthy r.album then some ("album: " ++ cellStr r.album) else none,
     if pyTruthy r.ms_played then some ("played_ms: " ++ cellStr r.ms_played) else none]
  " - " ++ String.intercalate " | " (segs.filterMap id)

/-! ## Helper lemmas -/

/-- the `str(value or "") or None` normalization never produces an empty
string. -/
theorem pyOrNone_ne_some_empty (o : Option String) : pyOrNone o ≠ some "" := by
  cases o with
  | none => simp [pyOrNone]
  | some s =>
    simp only [pyOrNone]
    split
    · simp
    · simp
      intro h
      simp_all

/-- every row returned by `find_relevant` is the image of some frame row
under the `DatasetRow` constructor call. -/
theorem mem_find_relevant_exists_source (rows : List IndexedRow) (q : String)
    (k : Nat) (r : DatasetRow) (h : r ∈ find_relevant rows q k) :
    ∃ r0, r = toDatasetRow r0 := by
  simp only [find_relevant] at h
  split at h
  · obtain ⟨r0, _, hr0⟩ := List.mem_map.mp h
    exact ⟨r0, hr0.symm⟩
  · split at h
    · exact absurd h (List.not_mem_nil r)
    · split at h
      · exact absurd h (List.not_mem_nil r)
      · obtain ⟨r0, _, hr0⟩ := List.mem_map.mp h
        exact ⟨r0, hr0.symm⟩

/-- failure of every encoding attempt yields no frame. -/
theorem try_encodings_eq_none (attempts : List (Option (List IndexedRow)))
    (h : ∀ a ∈ attempts, a = none) : try_encodings attempts = none := by
  induction attempts with
  | nil => rfl
  | cons a rest ih =>
    have ha : a = none := h a (List.mem_cons_self a rest)
    subst ha
    exact ih (fun x hx => h x (List.mem_cons_of_mem none hx))

/-- the code line format agrees pointwise with the amended claim line
format. -/
theorem formatRow_eq_claim_line (r : DatasetRow) : formatRow r = claim_line r := by
  unfold formatRow claim_line
  cases h1 : pyTruthy r.timestamp <;> cases h2 : pyTruthy r.track <;>
    cases h3 : pyTruthy r.artist <;> cases h4 : pyTruthy r.album <;>
    cases h5 : pyTruthy r.ms_played <;> simp

/-- the boolean substring check agrees with the infix relation. -/
theorem listInfix_correct (needle hay : List Char) :
    listInfix needle hay = true ↔ needle <:+: hay := by
  induction hay with
  | nil => simp [listInfix, List.infix_nil]
  | cons c t ih =>
    simp only [listInfix, Bool.or_eq_true, List.isPrefixOf_iff_prefix, ih]
    exact (List.infix_cons_iff).symm

/-- an all-word-character pattern inside `x ++ c :: y` with a non-word `c`
lies entirely inside `x` or entirely inside `y`. -/
theorem infix_word_split (c : Char) (kw : List Char) (hne : kw ≠ [])
    (hword : ∀ ch ∈ kw, isWordChar ch = true) (hc : isWordChar c = false) :
    ∀ x y : List Char, kw <:+: x ++ c :: y → kw <:+: x ∨ kw <:+: y := by
  intro x
  induction x with
  | nil =>
    intro y h
    rw [List.nil_append] at h
    rcases List.infix_cons_iff.mp h with hpre | hsuf
    · rcases hkw : kw with _ | ⟨k, ks⟩
      · exact absurd hkw hne
      · rw [hkw] at hpre
        obtain ⟨hk, _⟩ := List.cons_prefix_cons.mp hpre
        have hw := hword k (by rw [hkw]; exact List.mem_cons_self k ks)
        rw [hk, hc] at hw
        exact absurd hw (by simp)
    · exact Or.inr hsuf
  | cons a x2 ih =>
    intro y h
    rw [List.cons_append] at h
    rcases List.infix_cons_iff.mp h with hpre | hinf
    · have hsplit : a :: (x2 ++ c :: y) = (a :: x2) ++ (c :: y) := rfl
      have hlen : kw.length ≤ (a :: x2).length := by
        by_contra hgt
        push_neg at hgt
        have hupre : (a :: x2) <+: kw :=
          List.prefix_of_prefix_length_le
            (by rw [hsplit]; exact List.prefix_append _ _) hpre (Nat.le_of_lt hgt)
        obtain ⟨kw2, hkw2⟩ := hupre
        obtain ⟨tl, htl⟩ := hpre
        rw [← hkw2, hsplit, List.append_assoc] at htl
        have ht2 : kw2 ++ tl = c :: y := List.append_cancel_left htl
        have hkw2ne : kw2 ≠ [] := by
          intro hnil
          rw [hnil, List.append_nil] at hkw2
          rw [← hkw2] at hgt
          omega
        obtain ⟨c0, kw3, hkw3⟩ := List.exists_cons_of_ne_nil hkw2ne
        rw [hkw3, List.cons_append] at ht2
        injection ht2 with hc0 _
        have hcmem : c0 ∈ kw := by
          rw [← hkw2, hkw3]
          exact List.mem_append_right _ (List.mem_cons_self c0 kw3)
        rw [hc0] at hcmem
        have hw := hword c hcmem
        rw [hc] at hw
        exact absurd hw (by simp)
      have hpre2 : kw <+: a :: x2 := by
        refine List.prefix_of_prefix_length_le hpre ?_ hlen
        rw [hsplit]
        exact List.prefix_append _ _
      exact Or.inl hpre2.isInfix
    · rcases ih y hinf with h1 | h2
      · exact Or.inl (h1.trans (List.suffix_cons a x2).isInfix)
      · exact Or.inr h2

/-- every all-word-character infix of `acc.reverse ++ l` is an infix of one
of the runs computed by `runsAux l acc`, provided `acc` holds only word
characters. -/
theorem infix_mem_runsAux (kw : List Char) (hne : kw ≠ [])
    (hword : ∀ ch ∈ kw, isWordChar ch = true) :
    ∀ (l acc : List Char), (∀ ch ∈ acc, isWordChar ch = true) →
      kw <:+: acc.reverse ++ l → ∃ t ∈ runsAux l acc, kw <:+: t := by
  intro l
  induction l with
  | nil =>
    intro acc hacc h
    rw [List.append_nil] at h
    cases acc with
    | nil => exact absurd (List.infix_nil.mp h) hne
    | cons a acc2 =>
      refine ⟨(a :: acc2).reverse, ?_, h⟩
      simp [runsAux]
  | cons c cs ih =>
    intro acc hacc h
    by_cases hwc : isWordChar c = true
    · have hstep : runsAux (c :: cs) acc = runsAux cs (c :: acc) := by
        simp [runsAux, hwc]
      rw [hstep]
      refine ih (c :: acc) ?_ ?_
      · intro ch hch
        rcases List.mem_cons.mp hch with rfl | hch2
        · exact hwc
        · exact hacc ch hch2
      · rw [List.reverse_cons, List.append_assoc]
        simpa using h
    · have hc : isWordChar c = false := by simpa using hwc
      rcases infix_word_split c kw hne hword hc acc.reverse cs h with h1 | h2
      · cases acc with
        | nil => exact absurd (List.infix_nil.mp (by simpa using h1)) hne
        | cons a acc2 =>
          refine ⟨(a :: acc2).reverse, ?_, h1⟩
          simp [runsAux, hc]
      · cases acc with
        | nil =>
          have hstep : runsAux (c :: cs) [] = runsAux cs [] := by
            simp [runsAux, hc]
          rw [hstep]
          exact ih [] (by simp) (by simpa using h2)
        | cons a acc2 =>
          have hstep : runsAux (c :: cs) (a :: acc2) =
              (a :: acc2).reverse :: runsAux cs [] := by
            simp [runsAux, hc]
          rw [hstep]
          obtain ⟨t, ht, hinf2⟩ := ih [] (by simp) (by simpa using h2)
          exact ⟨t, List.mem_cons_of_mem _ ht, hinf2⟩

/-- the guard of the sampling branch is unsatisfiable: a query containing a
music keyword as a substring always keeps at least one extracted keyword,
because the keyword occurrence lies inside a token of length at least two
that is not a stop word. -/
theorem music_query_keeps_a_keyword (q : String)
    (h : is_music_related_query q = true) :
    (extract_keywords q).isEmpty = false := by
  unfold is_music_related_query at h
  obtain ⟨kw, hkw, hinf⟩ := List.any_eq_true.mp h
  have hfacts : ∀ k ∈ music_keywords,
      k.data ≠ [] ∧ (∀ ch ∈ k.data, isWordChar ch = true) ∧ 1 < k.data.length ∧
      (∀ s ∈ python_stop_words, listInfix k.data s.data = false) := by decide
  obtain ⟨hne, hword, hlen2, hstop⟩ := hfacts kw hkw
  have hinfix : kw.data <:+: (strLower q).data := (listInfix_correct _ _).mp hinf
  obtain ⟨t, htmem, htinf⟩ :=
    infix_mem_runsAux kw.data hne hword (strLower q).data [] (by simp)
      (by simpa using hinfix)
  have htok : String.mk t ∈ (splitRuns (strLower q).data).map (fun r => String.mk r) :=
    List.mem_map.mpr ⟨t, htmem, rfl⟩
  have htlen : 1 < (String.mk t).length := by
    have hle := htinf.length_le
    show 1 < t.length
    omega
  have htstop : python_stop_words.contains (String.mk t) = false := by
    rcases hb : python_stop_words.contains (String.mk t) with _ | _
    · rfl
    · exfalso
      have hmem : String.mk t ∈ python_stop_words := List.elem_iff.mp hb
      have h1 : listInfix kw.data t = false := hstop (String.mk t) hmem
      have h2 : listInfix kw.data t = true := (listInfix_correct _ _).mpr htinf
      rw [h2] at h1
      exact Bool.noConfusion h1
  have hkept : String.mk t ∈ extract_keywords q := by
    unfold extract_keywords
    refine List.mem_filter.mpr ⟨htok, ?_⟩
    simp only [Bool.and_eq_true, decide_eq_true_eq, Bool.not_eq_true', gt_iff_lt]
    exact ⟨htlen, htstop⟩
  rcases hq : (extract_keywords q).isEmpty with _ | _
  · rfl
  · exfalso
    rw [List.isEmpty_iff.mp hq] at hkept
    exact List.not_mem_nil _ hkept

/-! ## Claims -/

/-- C4: model resolution never fails to produce a model when any model is
installed: a non-empty requested model is the one used by
`generate_response`; with no requested model the chat pipeline uses the
configured default when it is installed and otherwise the first installed
model; the resolved model is always a member of the installed list; in the
concrete scenario of installed models `a`, `b` and absent default `z` the
resolution yields `a` and the backend is invoked with model `a`. -/
theorem C4_resolve_model_fallback_chain :
    (∀ names cfg, cfg ∈ names → resolve_default_model names cfg = some cfg) ∧
    (∀ first rest cfg, cfg ∉ first :: rest →
      resolve_default_model (first :: rest) cfg = some first) ∧
    (∀ names cfg, names ≠ [] →
      ∃ m, resolve_default_model names cfg = some m ∧ m ∈ names) ∧
    (∀ m cfg, m ≠ "" → generate_response_resolve_model (some m) cfg = m) ∧
    resolve_default_model ["a", "b"] "z" = some "a" ∧
    (∀ prompt backend,
      generate_ollama_response_with_context true [some "a", some "b"] "z" prompt none backend =
        generate_single_response (backend "a" prompt)) := by
  refine ⟨?_, ?_, ?_, ?_, ?_, ?_⟩
  · intro names cfg h
    cases names with
    | nil => exact absurd h (List.not_mem_nil cfg)
    | cons first rest =>
      simp only [resolve_default_model]
      rw [if_pos (by simpa using h)]
  · intro first rest cfg h
    simp only [resolve_default_model]
    rw [if_neg (by simpa using h)]
  · intro names cfg h
    cases names with
    | nil => exact absurd rfl h
    | cons first rest =>
      simp only [resolve_default_model]
      split
      · rename_i hc
        exact ⟨cfg, rfl, by simpa using hc⟩
      · exact ⟨first, rfl, List.mem_cons_self first rest⟩
  · intro m cfg h
    simp [generate_response_resolve_model, h]
  · rfl
  · intro prompt backend
    rfl

/-- C4 witness: the fallback chain evaluated at concrete inputs: an
installed default is kept, an absent default falls back to the first
installed model, the resolved model is installed, and a non-empty requested
model is used verbatim. -/
theorem C4_resolve_model_fallback_chain_witness :
    resolve_default_model ["a", "b"] "b" = some "b" ∧
    resolve_default_model ["a", "b"] "z" = some "a" ∧
    (∃ m, resolve_default_model ["a", "b"] "z" = some m ∧ m ∈ ["a", "b"]) ∧
    generate_response_resolve_model (some "m1") "d" = "m1" :=
  ⟨C4_resolve_model_fallback_chain.1 ["a", "b"] "b" (by decide),
   C4_resolve_model_fallback_chain.2.1 "a" ["b"] "z" (by decide),
   C4_resolve_model_fallback_chain.2.2.1 ["a", "b"] "z" (by decide),
   C4_resolve_model_fallback_chain.2.2.2.1 "m1" "d" (by decide)⟩

/-- C5: with a healthy backend and an empty installed-model list the
pipeline returns the fixed no-models report, whatever the configuration,
prompt and dataset context, and the generation backend is never consulted
(the result is the same for every backend oracle). -/
theorem C5_empty_model_list_reported :
    ∀ cfg prompt ds (b1 b2 : String → String → BackendResult),
      generate_ollama_response_with_context true [] cfg prompt ds b1 = no_models_message ∧
      generate_ollama_response_with_context true [] cfg prompt ds b1 =
        generate_ollama_response_with_context true [] cfg prompt ds b2 := by
  intro cfg prompt ds b1 b2
  exact ⟨rfl, rfl⟩

/-- C6: non-streaming generation is total: for every requested model,
configured default and backend oracle it returns either the content string
of a well-formed successful response or the fixed configured error message;
transport failures, timeouts, parse failures, missing `message` keys and
malformed messages all map to that fixed message. -/
theorem C6_generate_response_content_or_fixed_error :
    ∀ requested cfgDefault (backend : String → BackendResult),
      generate_response requested cfgDefault backend = general_error_message ∨
      ∃ content,
        backend (generate_response_resolve_model requested cfgDefault) =
          BackendResult.success (some (some content)) ∧
        generate_response requested cfgDefault backend = content := by
  intro requested cfg backend
  unfold generate_response
  cases h : backend (generate_response_resolve_model requested cfg) with
  | failure f => exact Or.inl rfl
  | success msg =>
    cases msg with
    | none => exact Or.inl rfl
    | some c =>
      cases c with
      | none => exact Or.inl rfl
      | some content => exact Or.inr ⟨content, rfl, rfl⟩

/-- C7: a missing source path, or failure of every encoding attempt, leaves
the index unavailable and every query through the service boundary returns
the empty list (the embedding is a total function, so no exception crosses
the boundary). -/
theorem C7_unavailable_index_queries_empty (path_exists : Bool)
    (attempts : List (Option (List IndexedRow))) (q : String) (k : Nat)
    (h : path_exists = false ∨ ∀ a ∈ attempts, a = none) :
    service_find_relevant path_exists attempts q k = [] := by
  rcases h with h | h
  · subst h
    rfl
  · have hn := try_encodings_eq_none attempts h
    unfold service_find_relevant load_dataset
    cases path_exists with
    | false => rfl
    | true => simp [hn]

/-- C7 witness: a concrete missing-path query and a concrete
failed-every-encoding query both return the empty list. -/
theorem C7_unavailable_index_queries_empty_witness :
    service_find_relevant false [some [helloRow]] "adele" 5 = [] ∧
    service_find_relevant true [none, none, none] "adele" 5 = [] :=
  ⟨C7_unavailable_index_queries_empty false [some [helloRow]] "adele" 5 (Or.inl rfl),
   C7_unavailable_index_queries_empty true [none, none, none] "adele" 5
     (Or.inr (by decide))⟩

/-- C9: warming the cache for any user with an empty recent-message list
(and the cache store reachable) is a no-op that reports success with zero
cached messages, exactly the dictionary the code returns. -/
theorem C9_warm_empty_message_list_no_op :
    ∀ user_id, cache_user_messages_on_login user_id true [] =
      ⟨true, some 0, none, none, some "No messages to cache"⟩ ∧
      (cache_user_messages_on_login user_id true []).cached = true ∧
      (cache_user_messages_on_login user_id true []).messages_count = some 0 := by
  intro user_id
  exact ⟨rfl, rfl, rfl⟩

/-- C10: every row returned by `find_relevant`, from either branch, has
each of its five fields equal to `none` or to a non-empty string; the empty
string never appears as a field value. -/
theorem C10_returned_fields_none_or_nonempty (rows : List IndexedRow)
    (q : String) (k : Nat) (r : DatasetRow) (h : r ∈ find_relevant rows q k) :
    r.timestamp ≠ some "" ∧ r.track ≠ some "" ∧ r.artist ≠ some "" ∧
    r.album ≠ some "" ∧ r.ms_played ≠ some "" := by
  obtain ⟨r0, rfl⟩ := mem_find_relevant_exists_source rows q k r h
  exact ⟨pyOrNone_ne_some_empty _, pyOrNone_ne_some_empty _, pyOrNone_ne_some_empty _,
    pyOrNone_ne_some_empty _, pyOrNone_ne_some_empty _⟩

/-- C10 witness: the invariant evaluated on the concrete row returned for
the query `adele`. -/
theorem C10_returned_fields_none_or_nonempty_witness :
    (⟨none, some "adele", none, none, none⟩ : DatasetRow).timestamp ≠ some "" ∧
    (⟨none, some "adele", none, none, none⟩ : DatasetRow).track ≠ some "" ∧
    (⟨none, some "adele", none, none, none⟩ : DatasetRow).artist ≠ some "" ∧
    (⟨none, some "adele", none, none, none⟩ : DatasetRow).album ≠ some "" ∧
    (⟨none, some "adele", none, none, none⟩ : DatasetRow).ms_played ≠ some "" :=
  C10_returned_fields_none_or_nonempty adeleRows "adele" 12
    ⟨none, some "adele", none, none, none⟩ (by decide)

/-- C1: at a seventeen-way score tie the pipeline embedding (with the
pandas default `kind="quicksort"` sort model) returns the matched rows in a
scrambled order, not the original row order the stable-tie-break claim
predicts: the result is a permutation of all seventeen positive-score rows
(every score is 1 for the query `love` and that query tokenizes to one
keyword), but differs from the original-order listing. -/
theorem C1_default_sort_breaks_stable_tie_order :
    find_relevant loveRows "love" 17 ≠ loveRows.map toDatasetRow ∧
    (find_relevant loveRows "love" 17).Perm (loveRows.map toDatasetRow) ∧
    loveRows.map (fun r => score_row (extract_keywords "love") (haystack r)) =
      List.replicate 17 1 ∧
    (extract_keywords "love").isEmpty = false := by
  refine ⟨by decide, by decide, by decide, by decide⟩

/-- C2: the deterministic-sampling branch never fires.  The generic domain
question from the specification, `What songs do I like?`, does contain the
domain keyword `songs`, but its tokenization is the non-empty keyword list
`what, songs, like` (the stop-word set lacks `what` and `like`), so the code
takes the scoring path and returns the empty list on a one-row frame
matching none of those words — instead of the `min(max_results, row_count)`
sample rows the claim describes.  The fourth conjunct machine-checks why no
query can satisfy the claim premise: no stop word contains a domain keyword
as a substring and every domain keyword is longer than one character, so a
domain-keyword occurrence always survives tokenization; the final conjunct
is the resulting universal statement that every music-related query keeps at
least one extracted keyword, making the sampling branch dead code. -/
theorem C2_sampling_branch_unreachable_eval :
    is_music_related_query "What songs do I like?" = true ∧
    extract_keywords "What songs do I like?" = ["what", "songs", "like"] ∧
    find_relevant [helloRow] "What songs do I like?" 12 = [] ∧
    music_keywords.all
      (fun kw => (python_stop_words.all (fun s => !(listInfix kw.data s.data))) &&
        kw.length > 1) = true ∧
    (∀ q, is_music_related_query q = true → (extract_keywords q).isEmpty = false) := by
  refine ⟨by decide, by decide, by decide, by decide, music_query_keeps_a_keyword⟩

/-- C2 witness: the unreachability statement discharged at the concrete
music-related query `top songs`. -/
theorem C2_sampling_branch_unreachable_eval_witness :
    (extract_keywords "top songs").isEmpty = false :=
  C2_sampling_branch_unreachable_eval.2.2.2.2 "top songs" (by decide)

/-- C3 counterexample: with the character budget 2 the produced block has
length 79, exceeding the budget (the Python slice `context[: 2 - 3]` drops
one character from the end and the three-character ellipsis is appended). -/
theorem C3_counterexample_budget_two :
    (get_relevant_context adeleRows "adele" 2).isSome = true ∧
    2 < ((get_relevant_context adeleRows "adele" 2).getD "").length := by
  exact ⟨by decide, by decide⟩

/-- C3 (amended): for every character budget of at least 3, a produced
context block has length at most the budget, and whenever the untruncated
block exceeds the budget the returned block ends with the ellipsis
marker. -/
theorem C3_context_block_within_budget (rows : List IndexedRow) (query : String)
    (L : Nat) (s : String) (hL : 3 ≤ L)
    (hs : get_relevant_context rows query L = some s) :
    s.length ≤ L ∧
    (L < (String.intercalate "\n" (contextLines (find_relevant rows query 12))).length →
      "...".data <:+ s.data) := by
  unfold get_relevant_context composeContext at hs
  split at hs
  · exact absurd hs (by simp)
  · rw [Option.some_inj] at hs
    by_cases hgt :
        (String.intercalate "\n" (contextLines (find_relevant rows query 12))).length > L
    · rw [if_pos hgt] at hs
      subst hs
      have hslice :
          (pySliceTo (String.intercalate "\n" (contextLines (find_relevant rows query 12)))
            ((L : Int) - 3)).length = L - 3 := by
        unfold pySliceTo
        rw [if_pos (by omega)]
        show (List.take (((L : Int) - 3).toNat) _).length = L - 3
        rw [List.length_take]
        have h3 : ((L : Int) - 3).toNat = L - 3 := by omega
        rw [h3]
        have hcl :
            (String.intercalate "\n" (contextLines (find_relevant rows query 12))).length =
              (String.intercalate "\n" (contextLines (find_relevant rows query 12))).data.length :=
          rfl
        omega
      constructor
      · rw [String.length_append, hslice]
        have hdots : "...".length = 3 := rfl
        rw [hdots]
        omega
      · intro _
        rw [String.data_append]
        exact List.suffix_append _ _
    · rw [if_neg hgt] at hs
      subst hs
      exact ⟨by omega, fun hcon => absurd hcon hgt⟩

/-- C3 witness: the concrete block for the query `adele` under the default
budget 1500 satisfies the amended bound. -/
theorem C3_context_block_within_budget_witness :
    adeleBlock.length ≤ 1500 ∧
    (1500 < (String.intercalate "\n" (contextLines (find_relevant adeleRows "adele" 12))).length →
      "...".data <:+ adeleBlock.data) :=
  C3_context_block_within_budget adeleRows "adele" 1500 adeleBlock (by omega) (by decide)

/-- C8 counterexample: for the reachable one-row match set produced by the
query `adele` (track set, artist absent) the code emits the placeholder
segment `by Unknown Artist` instead of omitting the empty artist field, so
the block is not the header followed by the omit-every-empty-field lines
the claim describes. -/
theorem C8_counterexample_placeholder_not_omitted :
    find_relevant adeleRows "adele" 12 =
      [⟨none, some "adele", none, none, none⟩] ∧
    contextLines (find_relevant adeleRows "adele" 12) ≠
      header_line :: (find_relevant adeleRows "adele" 12).map original_claim_line ∧
    listInfix "Unknown Artist".data
      (((contextLines (find_relevant adeleRows "adele" 12)).getD 1 "").data) = true := by
  refine ⟨by decide, by decide, by decide⟩

/-- C8 (amended): for every non-empty match set the context block is the
header line followed by exactly one line per matched row in the pipe-joined
format in which timestamp, album and play-time segments are omitted when
the field is empty while an empty track or artist is replaced by the
placeholders `Unknown Track` / `Unknown Artist`. -/
theorem C8_block_header_and_one_line_per_row (ms : List DatasetRow)
    (hne : ms ≠ []) :
    contextLines ms = header_line :: ms.map claim_line ∧
    (contextLines ms).length = ms.length + 1 := by
  constructor
  · unfold contextLines
    exact congrArg (header_line :: ·)
      (List.map_congr_left (fun r _ => formatRow_eq_claim_line r))
  · simp [contextLines]

/-- C8 witness: the amended block structure evaluated at the concrete match
set for the query `adele`. -/
theorem C8_block_header_and_one_line_per_row_witness :
    contextLines (find_relevant adeleRows "adele" 12) =
      header_line :: (find_relevant adeleRows "adele" 12).map claim_line ∧
    (contextLines (find_relevant adeleRows "adele" 12)).length =
      (find_relevant adeleRows "adele" 12).length + 1 :=
  C8_block_header_and_one_line_per_row (find_relevant adeleRows "adele" 12) (by decide)
